import Mathlib

/-!
Shallow embedding of the Xenonite Mission Control simulation core:
the collision-threat scoring engine (src/js/cts-engine.js), the orbital
propagator wrapper (src/js/orbital.js) and the multi-rate update scheduler
(src/js/app.js).

JavaScript numbers are modelled as real numbers (ℝ) wherever the code does
ordinary arithmetic on finite values; in that embedding every value is
finite, so the engine's `isFinite`/`isNaN` guards are identically true and
are noted in comments where they occur in the source. Where a claim is
specifically about the non-finite guards (the ECI-to-scene conversion),
JavaScript values are modelled by an explicit type `JSVal` with NaN,
±Infinity and undefined. Scores are integers (`Math.round` results), so
score-valued expressions are ℤ. Mutable module state is threaded
explicitly as a state record.
-/

/-! ## Vector geometry (THREE.Vector3 as used by the engine) -/

/-- A THREE.js `Vector3` with finite numeric components. -/
structure Vec3 where
  x : ℝ
  y : ℝ
  z : ℝ

/-- `THREE.Vector3.distanceTo`: the Euclidean distance in scene units. -/
noncomputable def distanceTo (a b : Vec3) : ℝ :=
  Real.sqrt ((a.x - b.x) ^ 2 + (a.y - b.y) ^ 2 + (a.z - b.z) ^ 2)

/-! ## CTS engine constants (src/js/cts-engine.js lines 13-28) -/

/-- Outer warning zone, kilometers. -/
def DANGER_RADIUS : ℝ := 100
/-- Immediate threat zone, kilometers. -/
def CRITICAL_RADIUS : ℝ := 10
/-- Extreme danger zone, kilometers. -/
def EXTREME_RADIUS : ℝ := 5
/-- Weight for danger zone threats. -/
def DANGER_WEIGHT : ℝ := 0.5
/-- Large bonus for critical proximity. -/
def CRITICAL_BONUS : ℝ := 50
/-- Massive bonus for extreme proximity. -/
def EXTREME_BONUS : ℝ := 80
/-- History capacity: 2 minutes at 1 update/second. -/
def MAX_HISTORY : ℕ := 120

/-- One entry of the `threats` array built by `calculateScore`:
`{index, distance, threat}` (distance in km). -/
structure Threat where
  index : ℕ
  distance : ℝ
  threat : ℝ

/-- The CTS module's mutable state: `historicalScores`, `forceScore`,
`lastThreats` (src/js/cts-engine.js lines 25, 28, 31). -/
structure CTSState where
  historicalScores : List ℤ
  forceScore : Option ℤ
  lastThreats : List Threat

/-- The module's initial state: empty history, no override, no threats. -/
def initialCTS : CTSState := ⟨[], none, []⟩

/-- `historicalScores.push(s); if (length > MAX_HISTORY) shift()`
(the history-append idiom repeated at lines 46-49, 56-59, 108-111). -/
def pushHistory (h : List ℤ) (score : ℤ) : List ℤ :=
  let h1 := h ++ [score]
  if h1.length > MAX_HISTORY then h1.tail else h1

/-- The debris loop of `calculateScore` (src/js/cts-engine.js lines 67-102),
threading the `forEach` index, the `threatScore` accumulator and the
`threats` array. The source skips a debris object when its distance is not
finite; in the real-number embedding every distance is finite, so that
guard is identically true and does not appear. -/
noncomputable def processLoop (playerPosition : Vec3) :
    ℕ → ℝ → List Threat → List Vec3 → ℝ × List Threat
  | _, threatScore, threats, [] => (threatScore, threats)
  | i, threatScore, threats, debrisPos :: rest =>
    let distance := distanceTo playerPosition debrisPos
    let distanceKm := distance * 1000
    if distanceKm < DANGER_RADIUS then
      let proximityThreat := (DANGER_RADIUS - distanceKm) * DANGER_WEIGHT
      let score1 := threatScore + proximityThreat
      let threats1 := threats ++ [⟨i, distanceKm, proximityThreat⟩]
      if distanceKm < CRITICAL_RADIUS then
        if distanceKm < EXTREME_RADIUS then
          processLoop playerPosition (i + 1) (score1 + CRITICAL_BONUS + EXTREME_BONUS)
            threats1 rest
        else
          processLoop playerPosition (i + 1) (score1 + CRITICAL_BONUS) threats1 rest
      else
        processLoop playerPosition (i + 1) score1 threats1 rest
    else
      processLoop playerPosition (i + 1) threatScore threats rest

/-- The accumulated threat score and threat list over the whole debris
list, before clamping and rounding (src/js/cts-engine.js lines 63-102). -/
noncomputable def processDebris (playerPosition : Vec3) (debrisPositions : List Vec3) :
    ℝ × List Threat :=
  processLoop playerPosition 0 0 [] debrisPositions

/-- `Math.min(Math.round(threatScore), 100)` (line 105) applied to the
accumulated score. -/
noncomputable def scoreOf (playerPosition : Vec3) (debrisPositions : List Vec3) : ℤ :=
  min (round (processDebris playerPosition debrisPositions).1) 100

/-- `threats.sort((a, b) => a.distance - b.distance)` (line 114): ascending
insertion of one threat by distance. -/
noncomputable def insertThreat (t : Threat) : List Threat → List Threat
  | [] => [t]
  | u :: rest =>
    if t.distance ≤ u.distance then t :: u :: rest else u :: insertThreat t rest

/-- Sort the threat list by ascending distance. -/
noncomputable def sortThreats (l : List Threat) : List Threat :=
  l.foldr insertThreat []

/-- `calculateScore(playerPosition, debrisPositions)`
(src/js/cts-engine.js lines 42-123): returns the tick's score and the
updated module state. A missing player position or debris array is `none`
(JavaScript null/undefined is falsy). -/
noncomputable def calculateScore (st : CTSState) (playerPosition : Option Vec3)
    (debrisPositions : Option (List Vec3)) : ℤ × CTSState :=
  match st.forceScore with
  | some f => (f, { st with historicalScores := pushHistory st.historicalScores f })
  | none =>
    match playerPosition, debrisPositions with
    | some p, some ds =>
      if ds.isEmpty then
        (0, { st with historicalScores := pushHistory st.historicalScores 0 })
      else
        let threatScore := scoreOf p ds
        (threatScore,
          { st with
              historicalScores := pushHistory st.historicalScores threatScore,
              lastThreats := (sortThreats (processDebris p ds).2).take 5 })
    | _, _ =>
      (0, { st with historicalScores := pushHistory st.historicalScores 0 })

/-- `getScoreStatus(score)` (src/js/cts-engine.js lines 133-143). -/
def getScoreStatus (score : ℤ) : String :=
  if score ≥ 86 then "CRITICAL"
  else if score ≥ 61 then "WARNING"
  else if score ≥ 31 then "ELEVATED"
  else "NOMINAL"

/-- `getClosestThreats()` (lines 312-314): returns `lastThreats`. -/
def getClosestThreats (st : CTSState) : List Threat :=
  st.lastThreats

/-- The clamped-rounded value `Math.min(Math.max(Math.round(score), 0), 100)`
stored by `setForceScore` (line 328). -/
noncomputable def forcedValue (score : ℝ) : ℤ :=
  min (max (round score) 0) 100

/-- `setForceScore(score)` (src/js/cts-engine.js lines 323-331). -/
noncomputable def setForceScore (st : CTSState) (score : Option ℝ) : CTSState :=
  match score with
  | none => { st with forceScore := none }
  | some v => { st with forceScore := some (forcedValue v) }

/-- `resetHistory()` (src/js/cts-engine.js lines 339-343). -/
def resetHistory (st : CTSState) : CTSState :=
  { st with historicalScores := [], lastThreats := [] }

/-- The CTS states the module can be in: the initial state followed by any
sequence of public mutating calls (`calculateScore`, `setForceScore`,
`resetHistory`). -/
inductive CTSReachable : CTSState → Prop
  | init : CTSReachable initialCTS
  | callScore (s : CTSState) (p : Option Vec3) (d : Option (List Vec3)) :
      CTSReachable s → CTSReachable (calculateScore s p d).2
  | callForce (s : CTSState) (v : Option ℝ) :
      CTSReachable s → CTSReachable (setForceScore s v)
  | callReset (s : CTSState) :
      CTSReachable s → CTSReachable (resetHistory s)

/-! ## Spec-side definitions for the accumulation claim (C1) -/

/-- The per-object contribution as the claim words it: 0 when d ≥ 100 km,
otherwise (100 − d) · 0.5, plus 50 when d < 10 km, plus 80 when d < 5 km. -/
noncomputable def specContribution (d : ℝ) : ℝ :=
  if 100 ≤ d then 0
  else (100 - d) * 0.5 + (if d < 10 then 50 else 0) + (if d < 5 then 80 else 0)

/-- The active-threat records as the claim words them: exactly the objects
at distance d < 100 km, each recorded with its distance and contribution,
indexed from `start`. -/
noncomputable def specThreatsFrom (playerPosition : Vec3) :
    ℕ → List Vec3 → List Threat
  | _, [] => []
  | i, q :: rest =>
    let d := distanceTo playerPosition q * 1000
    if d < 100 then
      ⟨i, d, (100 - d) * 0.5⟩ :: specThreatsFrom playerPosition (i + 1) rest
    else
      specThreatsFrom playerPosition (i + 1) rest

example : getScoreStatus 25 = "NOMINAL" := by decide
example : getScoreStatus 95 = "CRITICAL" := by decide
example : pushHistory [] 7 = [7] := by decide

/-! ## Helper lemmas about the scoring loop -/

/-- Contribution of an object inside the extreme radius. -/
theorem specContribution_extreme (d : ℝ) (h : d < 5) :
    specContribution d = (100 - d) * 0.5 + 50 + 80 := by
  have h10 : d < 10 := h.trans (by norm_num)
  have h100 : ¬ 100 ≤ d := not_le.mpr (h.trans (by norm_num))
  simp [specContribution, h, h10, h100]

/-- Contribution of an object inside the critical radius only. -/
theorem specContribution_critical (d : ℝ) (h5 : ¬ d < 5) (h10 : d < 10) :
    specContribution d = (100 - d) * 0.5 + 50 := by
  have h100 : ¬ 100 ≤ d := not_le.mpr (h10.trans (by norm_num))
  simp [specContribution, h5, h10, h100]

/-- Contribution of an object inside the danger radius only. -/
theorem specContribution_danger (d : ℝ) (h10 : ¬ d < 10) (h100 : d < 100) :
    specContribution d = (100 - d) * 0.5 := by
  have h5 : ¬ d < 5 := fun hlt => h10 (hlt.trans (by norm_num))
  simp [specContribution, h5, h10, not_le.mpr h100]

/-- Contribution of an object outside the danger radius. -/
theorem specContribution_far (d : ℝ) (h : ¬ d < 100) :
    specContribution d = 0 := by
  simp [specContribution, not_lt.mp h]

/-- The loop of `calculateScore` accumulates exactly the per-object spec
contributions and records exactly the sub-100 km objects as threats. -/
theorem processLoop_spec (p : Vec3) (l : List Vec3) :
    ∀ (i : ℕ) (sc : ℝ) (ts : List Threat),
      processLoop p i sc ts l =
        (sc + (l.map fun q => specContribution (distanceTo p q * 1000)).sum,
         ts ++ specThreatsFrom p i l) := by
  induction l with
  | nil => intro i sc ts; simp [processLoop, specThreatsFrom]
  | cons q rest ih =>
    intro i sc ts
    simp only [processLoop, specThreatsFrom, List.map_cons, List.sum_cons,
      DANGER_RADIUS, CRITICAL_RADIUS, EXTREME_RADIUS, DANGER_WEIGHT,
      CRITICAL_BONUS, EXTREME_BONUS]
    by_cases h1 : distanceTo p q * 1000 < 100
    · by_cases h2 : distanceTo p q * 1000 < 10
      · by_cases h3 : distanceTo p q * 1000 < 5
        · rw [if_pos h1, if_pos h1, if_pos h2, if_pos h3, ih,
            specContribution_extreme _ h3]
          exact Prod.ext (by push_cast; ring) (by simp)
        · rw [if_pos h1, if_pos h1, if_pos h2, if_neg h3, ih,
            specContribution_critical _ h3 h2]
          exact Prod.ext (by push_cast; ring) (by simp)
      · have h3 : ¬ distanceTo p q * 1000 < 5 := fun hlt => h2 (hlt.trans (by norm_num))
        rw [if_pos h1, if_pos h1, if_neg h2, ih, specContribution_danger _ h2 h1]
        exact Prod.ext (by push_cast; ring) (by simp)
    · rw [if_neg h1, if_neg h1, ih, specContribution_far _ h1]
      exact Prod.ext (by push_cast; ring) rfl

/-- Each spec contribution is non-negative. -/
theorem specContribution_nonneg (d : ℝ) : 0 ≤ specContribution d := by
  by_cases h1 : d < 100
  · by_cases h2 : d < 10
    · by_cases h3 : d < 5
      · rw [specContribution_extreme _ h3]; nlinarith
      · rw [specContribution_critical _ h3 h2]; nlinarith
    · rw [specContribution_danger _ h2 h1]; nlinarith
  · rw [specContribution_far _ h1]

/-- The accumulated raw threat score is non-negative. -/
theorem processDebris_fst_nonneg (p : Vec3) (ds : List Vec3) :
    0 ≤ (processDebris p ds).1 := by
  unfold processDebris
  rw [processLoop_spec]
  simp only [zero_add]
  exact List.sum_nonneg (by
    intro x hx
    obtain ⟨q, -, rfl⟩ := List.mem_map.mp hx
    exact specContribution_nonneg _)

/-- The clamped score is at least 0. -/
theorem scoreOf_nonneg (p : Vec3) (ds : List Vec3) : 0 ≤ scoreOf p ds := by
  unfold scoreOf
  refine le_min ?_ (by norm_num)
  rw [round_eq]
  exact Int.le_floor.mpr (by push_cast; linarith [processDebris_fst_nonneg p ds])

/-- The clamped score is at most 100. -/
theorem scoreOf_le (p : Vec3) (ds : List Vec3) : scoreOf p ds ≤ 100 :=
  min_le_right _ _

/-- `calculateScore` appends exactly its returned score to the history. -/
theorem calculateScore_state_hist (st : CTSState) (p : Option Vec3)
    (d : Option (List Vec3)) :
    (calculateScore st p d).2.historicalScores
      = pushHistory st.historicalScores (calculateScore st p d).1 := by
  unfold calculateScore
  rcases st with ⟨hist, fs, lts⟩
  cases fs with
  | some f => rfl
  | none =>
    cases p with
    | none => cases d <;> rfl
    | some pp =>
      cases d with
      | none => rfl
      | some ds => by_cases he : ds.isEmpty <;> simp [he]

/-- `calculateScore` never changes the override. -/
theorem calculateScore_force (st : CTSState) (p : Option Vec3)
    (d : Option (List Vec3)) :
    (calculateScore st p d).2.forceScore = st.forceScore := by
  unfold calculateScore
  rcases st with ⟨hist, fs, lts⟩
  cases fs with
  | some f => rfl
  | none =>
    cases p with
    | none => cases d <;> rfl
    | some pp =>
      cases d with
      | none => rfl
      | some ds => by_cases he : ds.isEmpty <;> simp [he]

/-- Appending to a history within capacity stays within capacity. -/
theorem pushHistory_length (h : List ℤ) (z : ℤ) (hle : h.length ≤ 120) :
    (pushHistory h z).length = min (h.length + 1) 120 := by
  have hlen : (h ++ [z]).length = h.length + 1 := by simp
  simp only [pushHistory, MAX_HISTORY]
  split_ifs with hgt
  · simp only [List.length_tail, hlen] at hgt ⊢
    omega
  · simp only [hlen] at hgt ⊢
    omega

/-- The stored forced value is clamped to [0, 100]. -/
theorem forcedValue_bounds (v : ℝ) : 0 ≤ forcedValue v ∧ forcedValue v ≤ 100 := by
  unfold forcedValue
  constructor
  · exact le_min (le_max_right _ _) (by norm_num)
  · exact min_le_right _ _

/-- State invariant maintained by every public mutating call: history within
capacity and any stored override clamped to [0, 100]. -/
theorem reachable_inv (s : CTSState) (h : CTSReachable s) :
    s.historicalScores.length ≤ 120 ∧
      ∀ f, s.forceScore = some f → 0 ≤ f ∧ f ≤ 100 := by
  induction h with
  | init => exact ⟨by simp [initialCTS], by simp [initialCTS]⟩
  | callScore s p d _ ih =>
    refine ⟨?_, ?_⟩
    · rw [calculateScore_state_hist, pushHistory_length _ _ ih.1]
      omega
    · intro f hf
      rw [calculateScore_force] at hf
      exact ih.2 f hf
  | callForce s v _ ih =>
    cases v with
    | none => exact ⟨ih.1, by simp [setForceScore]⟩
    | some r =>
      refine ⟨ih.1, ?_⟩
      intro f hf
      simp only [setForceScore, Option.some.injEq] at hf
      exact hf ▸ forcedValue_bounds r
  | callReset s _ ih => exact ⟨by simp [resetHistory], by simp [resetHistory]; exact ih.2⟩

/-! ## Evaluation lemmas for the three paths of `calculateScore` -/

/-- With an override stored, `calculateScore` returns it and appends it. -/
theorem calculateScore_forced (st : CTSState) (f : ℤ) (p : Option Vec3)
    (d : Option (List Vec3)) (hf : st.forceScore = some f) :
    calculateScore st p d
      = (f, { st with historicalScores := pushHistory st.historicalScores f }) := by
  unfold calculateScore
  rw [hf]

/-- With no override and invalid inputs, `calculateScore` returns 0 and only
appends 0 to the history (in particular `lastThreats` is left as it was). -/
theorem calculateScore_invalid (st : CTSState) (p : Option Vec3)
    (d : Option (List Vec3)) (hf : st.forceScore = none)
    (hinv : p = none ∨ d = none ∨ d = some []) :
    calculateScore st p d
      = (0, { st with historicalScores := pushHistory st.historicalScores 0 }) := by
  unfold calculateScore
  rw [hf]
  rcases hinv with rfl | rfl | rfl
  · cases d <;> rfl
  · cases p <;> rfl
  · cases p <;> rfl

/-- With no override and a player plus a non-empty debris list,
`calculateScore` runs the live geometry computation. -/
theorem calculateScore_valid (st : CTSState) (pp q : Vec3) (rest : List Vec3)
    (hf : st.forceScore = none) :
    calculateScore st (some pp) (some (q :: rest))
      = (scoreOf pp (q :: rest),
          { st with
              historicalScores := pushHistory st.historicalScores (scoreOf pp (q :: rest)),
              lastThreats := (sortThreats (processDebris pp (q :: rest)).2).take 5 }) := by
  unfold calculateScore
  rw [hf]
  simp

/-- The appended score is always the last history sample. -/
theorem pushHistory_getLast (h : List ℤ) (z : ℤ) :
    (pushHistory h z).getLast? = some z := by
  simp only [pushHistory]
  split_ifs with hgt
  · cases h with
    | nil => simp [MAX_HISTORY] at hgt
    | cons a t => simp [List.getLast?_concat]
  · exact List.getLast?_concat h

/-! ## Concrete geometry used by witnesses and counterexamples -/

/-- The origin of the scene frame. -/
noncomputable def originV : Vec3 := ⟨0, 0, 0⟩

/-- A point 0.05 scene units (50 km) from the origin along the x axis. -/
noncomputable def debris50 : Vec3 := ⟨1 / 20, 0, 0⟩

/-- The demo point is exactly 50 km from the origin. -/
theorem distance_originV_debris50 : distanceTo originV debris50 * 1000 = 50 := by
  unfold distanceTo originV debris50
  rw [show ((0:ℝ) - 1 / 20) ^ 2 + ((0:ℝ) - 0) ^ 2 + ((0:ℝ) - 0) ^ 2 = (1 / 20) ^ 2 by
    norm_num]
  rw [Real.sqrt_sq (by norm_num : (0:ℝ) ≤ 1 / 20)]
  norm_num

/-- A point at zero distance from itself. -/
theorem distance_originV_self : distanceTo originV originV * 1000 = 0 := by
  simp [distanceTo, originV]

/-- The clamped-rounded score of a single debris object at 50 km is 25. -/
theorem scoreOf_single_50 (p q : Vec3) (hd : distanceTo p q * 1000 = 50) :
    scoreOf p [q] = 25 := by
  unfold scoreOf
  have h1 : (processDebris p [q]).1 = 25 := by
    unfold processDebris
    rw [processLoop_spec]
    simp only [List.map_cons, List.map_nil, List.sum_cons, List.sum_nil, add_zero, zero_add]
    rw [hd, specContribution_danger 50 (by norm_num) (by norm_num)]
    norm_num
  rw [h1]
  norm_num [round_ofNat]

/-! ## Claim theorems: CTS engine -/

/-- Claim C1: for every player position and debris list (all distances are
finite real numbers in this embedding, matching the claim's finiteness
hypothesis), the accumulated threat score before clamping and rounding is
the sum of the per-object spec contributions — 0 at d ≥ 100 km, otherwise
(100 − d)·0.5 plus 50 when d < 10 km plus 80 when d < 5 km — and exactly
the objects at d < 100 km are recorded as active threats. -/
theorem calculateScore_accumulation (p : Vec3) (ds : List Vec3) :
    (processDebris p ds).1
        = (ds.map fun q => specContribution (distanceTo p q * 1000)).sum ∧
      (processDebris p ds).2 = specThreatsFrom p 0 ds := by
  unfold processDebris
  rw [processLoop_spec]
  simp

/-- Claim C2: from every reachable engine state (any override that can
actually be stored) and for all inputs, `calculateScore` returns an
integer — the result type is ℤ — within [0, 100]. -/
theorem calculateScore_in_range (st : CTSState) (p : Option Vec3)
    (d : Option (List Vec3)) (h : CTSReachable st) :
    0 ≤ (calculateScore st p d).1 ∧ (calculateScore st p d).1 ≤ 100 := by
  obtain ⟨-, hf⟩ := reachable_inv st h
  cases hfs : st.forceScore with
  | some f =>
    rw [calculateScore_forced st f p d hfs]
    exact hf f hfs
  | none =>
    cases p with
    | none =>
      rw [calculateScore_invalid st none d hfs (Or.inl rfl)]
      norm_num
    | some pp =>
      cases d with
      | none =>
        rw [calculateScore_invalid st (some pp) none hfs (Or.inr (Or.inl rfl))]
        norm_num
      | some ds =>
        cases ds with
        | nil =>
          rw [calculateScore_invalid st (some pp) (some []) hfs (Or.inr (Or.inr rfl))]
          norm_num
        | cons q rest =>
          rw [calculateScore_valid st pp q rest hfs]
          exact ⟨scoreOf_nonneg pp (q :: rest), scoreOf_le pp (q :: rest)⟩

/-- Claim C2 witness: the initial state is reachable and a concrete call
returns a value in [0, 100]. -/
theorem calculateScore_in_range_witness :
    CTSReachable initialCTS ∧
      (0 ≤ (calculateScore initialCTS none none).1 ∧
        (calculateScore initialCTS none none).1 ≤ 100) :=
  ⟨CTSReachable.init, calculateScore_in_range initialCTS none none CTSReachable.init⟩

/-- Claim C3 (amended): with exactly one debris object at 50 km from the
player and no override active, `calculateScore` returns
round((100 − 50)·0.5) = 25 — but the status bands of `getScoreStatus` map
25 (which is < 31) to "NOMINAL", not "ELEVATED". -/
theorem single_debris_50km (st : CTSState) (p q : Vec3)
    (hf : st.forceScore = none) (hd : distanceTo p q * 1000 = 50) :
    (calculateScore st (some p) (some [q])).1 = 25 ∧
      getScoreStatus (calculateScore st (some p) (some [q])).1 = "NOMINAL" := by
  have h1 : (calculateScore st (some p) (some [q])).1 = 25 := by
    rw [calculateScore_valid st p q [] hf]
    exact scoreOf_single_50 p q hd
  exact ⟨h1, by rw [h1]; decide⟩

/-- Claim C3 witness: the concrete 50 km configuration evaluated. -/
theorem single_debris_50km_witness :
    initialCTS.forceScore = none ∧ distanceTo originV debris50 * 1000 = 50 ∧
      ((calculateScore initialCTS (some originV) (some [debris50])).1 = 25 ∧
        getScoreStatus (calculateScore initialCTS (some originV) (some [debris50])).1
          = "NOMINAL") :=
  ⟨rfl, distance_originV_debris50,
    single_debris_50km initialCTS originV debris50 rfl distance_originV_debris50⟩

/-- Claim C3 counterexample: at the concrete 50 km configuration the score
is 25 and its status is not "ELEVATED" (it is "NOMINAL"), contradicting the
claim's status assertion. -/
theorem single_debris_50km_not_elevated :
    distanceTo originV debris50 * 1000 = 50 ∧
      (calculateScore initialCTS (some originV) (some [debris50])).1 = 25 ∧
      getScoreStatus (calculateScore initialCTS (some originV) (some [debris50])).1
        ≠ "ELEVATED" := by
  have h1 : (calculateScore initialCTS (some originV) (some [debris50])).1 = 25 := by
    rw [calculateScore_valid initialCTS originV debris50 [] rfl]
    exact scoreOf_single_50 originV debris50 distance_originV_debris50
  refine ⟨distance_originV_debris50, h1, ?_⟩
  rw [h1]
  decide

/-- Claim C4: from every reachable engine state the history length is at
most 120, and one `calculateScore` call (any arguments: forced, invalid or
live) takes the length to min(length + 1, 120) — it grows by exactly one
until it saturates at 120 and then stays there, the oldest sample being
evicted. -/
theorem history_ring_buffer (st : CTSState) (h : CTSReachable st) :
    st.historicalScores.length ≤ 120 ∧
      ∀ (p : Option Vec3) (d : Option (List Vec3)),
        (calculateScore st p d).2.historicalScores.length
          = min (st.historicalScores.length + 1) 120 := by
  have hlen := (reachable_inv st h).1
  refine ⟨hlen, fun p d => ?_⟩
  rw [calculateScore_state_hist]
  exact pushHistory_length _ _ hlen

/-- Claim C4 witness: the initial state evaluated. -/
theorem history_ring_buffer_witness :
    CTSReachable initialCTS ∧
      (initialCTS.historicalScores.length ≤ 120 ∧
        ∀ (p : Option Vec3) (d : Option (List Vec3)),
          (calculateScore initialCTS p d).2.historicalScores.length
            = min (initialCTS.historicalScores.length + 1) 120) :=
  ⟨CTSReachable.init, history_ring_buffer initialCTS CTSReachable.init⟩

/-- Claim C5 (amended): with no override and a missing player position or a
missing/empty debris list, `calculateScore` returns 0 and appends one 0
sample to the history; the closest-threats list observable via
`getClosestThreats` is left unchanged (the early-return path does not clear
it, so it is empty only if it was empty before the call). -/
theorem invalid_inputs_degrade (st : CTSState) (p : Option Vec3)
    (d : Option (List Vec3)) (hf : st.forceScore = none)
    (hinv : p = none ∨ d = none ∨ d = some []) :
    (calculateScore st p d).1 = 0 ∧
      (calculateScore st p d).2.historicalScores = pushHistory st.historicalScores 0 ∧
      getClosestThreats (calculateScore st p d).2 = getClosestThreats st := by
  rw [calculateScore_invalid st p d hf hinv]
  exact ⟨rfl, rfl, rfl⟩

/-- Claim C5 witness: the initial state with missing inputs evaluated. -/
theorem invalid_inputs_degrade_witness :
    initialCTS.forceScore = none ∧
      ((calculateScore initialCTS none none).1 = 0 ∧
        (calculateScore initialCTS none none).2.historicalScores
          = pushHistory initialCTS.historicalScores 0 ∧
        getClosestThreats (calculateScore initialCTS none none).2
          = getClosestThreats initialCTS) :=
  ⟨rfl, invalid_inputs_degrade initialCTS none none rfl (Or.inl rfl)⟩

/-- Claim C5 counterexample: after one live call that records a threat, an
invalid call (missing player and debris) still returns with a non-empty
closest-threats list — the early-return path does not empty it, refuting
"the closest-threats list ... is empty afterwards". -/
theorem invalid_call_keeps_threats :
    getClosestThreats
        (calculateScore (calculateScore initialCTS (some originV) (some [originV])).2
          none none).2 ≠ [] := by
  have hthreats : (processDebris originV [originV]).2 = [⟨0, 0, 50⟩] := by
    unfold processDebris
    rw [processLoop_spec]
    simp [specThreatsFrom, distance_originV_self]
    norm_num
  have hs1 : (calculateScore initialCTS (some originV) (some [originV])).2.lastThreats
      = [⟨0, 0, 50⟩] := by
    rw [calculateScore_valid initialCTS originV originV [] rfl]
    simp [hthreats, sortThreats, insertThreat]
  have hforce1 :
      (calculateScore initialCTS (some originV) (some [originV])).2.forceScore = none := by
    rw [calculateScore_force]
    rfl
  rw [calculateScore_invalid _ none none hforce1 (Or.inl rfl)]
  simp [getClosestThreats, hs1]

/-- `setForceScore(95)` stores exactly 95. -/
theorem forcedValue_95 : forcedValue 95 = 95 := by
  unfold forcedValue
  rw [round_ofNat]
  norm_num

/-- Claim C6: after `setForceScore` stores an override, every
`calculateScore` call ignores the geometry (any two argument pairs give the
same result), returns the stored value unchanged, and appends that value as
the latest history sample; for the example value 95 the status is
"CRITICAL"; passing the null sentinel clears the override, after which
`calculateScore` computes from live geometry again (`scoreOf`). -/
theorem forced_override_behavior (s : CTSState) (v : ℝ) (p p2 : Option Vec3)
    (d d2 : Option (List Vec3)) (pp q : Vec3) (rest : List Vec3) :
    (setForceScore s (some v)).forceScore = some (forcedValue v) ∧
      (calculateScore (setForceScore s (some v)) p d).1 = forcedValue v ∧
      (calculateScore (setForceScore s (some v)) p d).1
        = (calculateScore (setForceScore s (some v)) p2 d2).1 ∧
      (calculateScore (setForceScore s (some v)) p d).2.historicalScores
        = pushHistory s.historicalScores (forcedValue v) ∧
      (calculateScore (setForceScore s (some v)) p d).2.historicalScores.getLast?
        = some (forcedValue v) ∧
      getScoreStatus (calculateScore (setForceScore s (some 95)) p d).1 = "CRITICAL" ∧
      (setForceScore (setForceScore s (some v)) none).forceScore = none ∧
      (calculateScore (setForceScore (setForceScore s (some v)) none)
          (some pp) (some (q :: rest))).1 = scoreOf pp (q :: rest) := by
  have hstore : (setForceScore s (some v)).forceScore = some (forcedValue v) := rfl
  have h1 := calculateScore_forced (setForceScore s (some v)) (forcedValue v) p d hstore
  have h2 := calculateScore_forced (setForceScore s (some v)) (forcedValue v) p2 d2 hstore
  have h95 := calculateScore_forced (setForceScore s (some 95)) (forcedValue 95) p d rfl
  refine ⟨hstore, ?_, ?_, ?_, ?_, ?_, rfl, ?_⟩
  · rw [h1]
  · rw [h1, h2]
  · rw [h1]
    rfl
  · simp only [h1]
    exact pushHistory_getLast _ _
  · rw [h95, forcedValue_95]
    show getScoreStatus 95 = "CRITICAL"
    decide
  · rw [calculateScore_valid _ pp q rest rfl]

/-! ## JavaScript values with non-finite cases (src/js/orbital.js) -/

/-- A JavaScript value as the ECI-conversion guards see it: an ordinary
finite number, NaN, ±Infinity, or a non-number (undefined/missing). -/
inductive JSVal where
  | num (q : ℚ)
  | nan
  | posInf
  | negInf
  | undef
deriving DecidableEq, Repr

/-- `typeof v === 'number'` — NaN and ±Infinity are numbers, undefined is not. -/
def typeofIsNumber : JSVal → Bool
  | .undef => false
  | _ => true

/-- `isNaN(v)` on such a value. -/
def jsIsNaN : JSVal → Bool
  | .nan => true
  | _ => false

/-- `isFinite(v)`: true exactly for ordinary numbers. -/
def jsIsFinite : JSVal → Bool
  | .num _ => true
  | _ => false

/-- The numeric value of a finite `JSVal` (defaulting to 0 elsewhere; only
reached after the finiteness guards have passed). -/
def JSVal.toQ : JSVal → ℚ
  | .num q => q
  | _ => 0

/-- An ECI `{x, y, z}` object whose components are JavaScript values
(also used for velocity triples). -/
structure EciPos where
  x : JSVal
  y : JSVal
  z : JSVal
deriving DecidableEq, Repr

/-- `SCALE_FACTOR` (src/js/orbital.js line 20): 1 scene unit = 1000 km. -/
def SCALE_FACTOR : ℚ := 1000

/-- `eciToScenePosition(eciPosition)` (src/js/orbital.js lines 169-224):
null/undefined input and each guard (non-number type, NaN, non-finite)
yield null; otherwise the axis permutation with uniform scale divide. The
THREE-availability check always passes in this model (the renderer library
is loaded), and the post-conversion NaN re-check is identically false on
rationals. -/
def eciToScenePosition (eciPosition : Option EciPos) : Option (ℚ × ℚ × ℚ) :=
  match eciPosition with
  | none => none
  | some p =>
    if ¬ (typeofIsNumber p.x ∧ typeofIsNumber p.y ∧ typeofIsNumber p.z) then none
    else if jsIsNaN p.x ∨ jsIsNaN p.y ∨ jsIsNaN p.z then none
    else if ¬ (jsIsFinite p.x ∧ jsIsFinite p.y ∧ jsIsFinite p.z) then none
    else
      let x := p.x.toQ / SCALE_FACTOR
      let y := p.z.toQ / SCALE_FACTOR
      let z := -p.y.toQ / SCALE_FACTOR
      some (x, y, z)

/-- What `satellite.propagate` places in `positionAndVelocity.position`:
the boolean `false`, the library's error sentinel, or an ECI vector. -/
inductive PropPosition where
  | boolFalse
  | errorSentinel
  | vec (v : EciPos)

/-- A raw `{position, velocity}` pair from the library. -/
structure RawPV where
  position : PropPosition
  velocity : EciPos

/-- A raw library call either throws or returns a pair. -/
inductive RawOutcome where
  | throws
  | ok (pv : RawPV)

/-- The external SGP4 implementation. Modelled from the spec:
`satellite.propagate` is the external satellite.js library, not code of
this repository; per the spec the propagator "is a pure function of
(elementSet, time)", so it is embedded as a function value over abstract
satellite-record and date types. -/
structure SatLib (Satrec Date : Type) where
  propagateRaw : Satrec → Date → RawOutcome

/-- The `{position, velocity}` result of the repository's wrapper. -/
structure PropResult where
  position : EciPos
  velocity : EciPos

/-- `propagate(satrec, date)` (src/js/orbital.js lines 142-159): maps a
thrown exception or an error-valued position to null, otherwise returns
the position/velocity pair. -/
def propagate {Satrec Date : Type} (lib : SatLib Satrec Date) (satrec : Satrec)
    (date : Date) : Option PropResult :=
  match lib.propagateRaw satrec date with
  | .throws => none
  | .ok pv =>
    match pv.position with
    | .boolFalse => none
    | .errorSentinel => none
    | .vec v => some ⟨v, pv.velocity⟩

/-- `MAX_ACTIVE_RENDER` (src/js/orbital.js line 21). -/
def MAX_ACTIVE_RENDER : ℕ := 500

/-- A stored `{name, satrec}` entry. -/
structure SatEntry (Satrec : Type) where
  name : String
  satrec : Satrec

/-- The orbital module state needed here: the `activeSatellites` array. -/
structure OrbitalState (Satrec : Type) where
  activeSatellites : List (SatEntry Satrec)

/-- The body of the `getActiveSatellitePositions` loop (lines 297-305):
push the scene conversion when propagation succeeded (the pushed value may
itself be null, as in the source). -/
def pushPosition {Satrec Date : Type} (lib : SatLib Satrec Date) (date : Date)
    (positions : List (Option (ℚ × ℚ × ℚ))) (sat : SatEntry Satrec) :
    List (Option (ℚ × ℚ × ℚ)) :=
  match propagate lib sat.satrec date with
  | some pv => positions ++ [eciToScenePosition (some pv.position)]
  | none => positions

/-- `getActiveSatellitePositions(date)` (src/js/orbital.js lines 293-308):
loop over the first `min(count, MAX_ACTIVE_RENDER)` stored satellites. -/
def getActiveSatellitePositions {Satrec Date : Type} (lib : SatLib Satrec Date)
    (st : OrbitalState Satrec) (date : Date) : List (Option (ℚ × ℚ × ℚ)) :=
  (st.activeSatellites.take (min st.activeSatellites.length MAX_ACTIVE_RENDER)).foldl
    (pushPosition lib date) []

/-- The loop is the filterMap of per-satellite propagation over its input. -/
theorem pushPosition_foldl {Satrec Date : Type} (lib : SatLib Satrec Date) (date : Date)
    (l : List (SatEntry Satrec)) :
    ∀ acc : List (Option (ℚ × ℚ × ℚ)),
      l.foldl (pushPosition lib date) acc
        = acc ++ l.filterMap (fun sat => (propagate lib sat.satrec date).map
            (fun pv => eciToScenePosition (some pv.position))) := by
  induction l with
  | nil => intro acc; simp
  | cons sat rest ih =>
    intro acc
    cases hp : propagate lib sat.satrec date with
    | none => simp [List.foldl_cons, pushPosition, hp, ih]
    | some pv => simp [List.foldl_cons, pushPosition, hp, ih]

/-- Taking `min (length, n)` elements is the same as taking `n`. -/
theorem take_min_length {α : Type} (l : List α) (n : ℕ) :
    l.take (min l.length n) = l.take n := by
  rcases le_total l.length n with h | h
  · rw [min_eq_left h, List.take_length, List.take_of_length_le h]
  · rw [min_eq_right h]

/-- Claim C7: `propagate` is deterministic — two calls with identical
(satrec, date) inputs yield identical outputs (identical position/velocity
pair or identically no position). The wrapper reads no module state; the
underlying library call is modelled as a pure function, per the spec. -/
theorem propagate_deterministic {Satrec Date : Type} (lib : SatLib Satrec Date)
    (satrec : Satrec) (date : Date) (r1 r2 : Option PropResult)
    (h1 : propagate lib satrec date = r1) (h2 : propagate lib satrec date = r2) :
    r1 = r2 := h1 ▸ h2

/-- A concrete library whose raw call always throws. -/
def demoLib : SatLib ℕ ℕ := ⟨fun _ _ => RawOutcome.throws⟩

/-- Claim C7 witness: two identical concrete calls agree. -/
theorem propagate_deterministic_witness :
    propagate demoLib 0 0 = none ∧ (none : Option PropResult) = none :=
  ⟨rfl, propagate_deterministic demoLib 0 0 none none rfl rfl⟩

/-- Claim C8: the scene-space conversion returns none exactly when the
input is missing or some component is not a finite number (undefined, NaN
or ±Infinity — `jsIsFinite` is false precisely on those); and on a fully
finite input (x, y, z) it returns (x/1000, z/1000, −y/1000): inertial X to
render X, inertial Z to render Y, inertial Y to render −Z, all divided by
the 1000 km scale factor. -/
theorem eciToScenePosition_spec (eciPosition : Option EciPos) :
    (eciToScenePosition eciPosition = none ↔
        eciPosition = none ∨
          ∃ p, eciPosition = some p ∧
            (jsIsFinite p.x = false ∨ jsIsFinite p.y = false ∨ jsIsFinite p.z = false)) ∧
      ∀ a b c : ℚ,
        eciPosition = some ⟨JSVal.num a, JSVal.num b, JSVal.num c⟩ →
        eciToScenePosition eciPosition = some (a / 1000, c / 1000, -b / 1000) := by
  constructor
  · cases eciPosition with
    | none => simp [eciToScenePosition]
    | some p =>
      obtain ⟨px, py, pz⟩ := p
      cases px <;> cases py <;> cases pz <;>
        simp [eciToScenePosition, typeofIsNumber, jsIsNaN, jsIsFinite]
  · intro a b c h
    subst h
    simp [eciToScenePosition, typeofIsNumber, jsIsNaN, jsIsFinite, JSVal.toQ, SCALE_FACTOR]

/-- Claim C8 witness: a concrete finite input evaluated. -/
theorem eciToScenePosition_spec_witness :
    eciToScenePosition (some ⟨JSVal.num 1, JSVal.num 2, JSVal.num 3⟩)
      = some (1 / 1000, 3 / 1000, -2 / 1000) :=
  (eciToScenePosition_spec (some ⟨JSVal.num 1, JSVal.num 2, JSVal.num 3⟩)).2 1 2 3 rfl

/-- Claim C10: for every date the returned list has at most
MAX_ACTIVE_RENDER = 500 entries, and it equals the per-satellite
propagation results of exactly the first 500 stored active satellites —
satellites beyond the cap never contribute a position. -/
theorem active_render_capped {Satrec Date : Type} (lib : SatLib Satrec Date)
    (st : OrbitalState Satrec) (date : Date) :
    (getActiveSatellitePositions lib st date).length ≤ MAX_ACTIVE_RENDER ∧
      getActiveSatellitePositions lib st date
        = (st.activeSatellites.take MAX_ACTIVE_RENDER).filterMap
            (fun sat => (propagate lib sat.satrec date).map
              (fun pv => eciToScenePosition (some pv.position))) := by
  have heq : getActiveSatellitePositions lib st date
      = (st.activeSatellites.take MAX_ACTIVE_RENDER).filterMap
          (fun sat => (propagate lib sat.satrec date).map
            (fun pv => eciToScenePosition (some pv.position))) := by
    unfold getActiveSatellitePositions
    rw [take_min_length, pushPosition_foldl]
    simp
  refine ⟨?_, heq⟩
  rw [heq]
  calc ((st.activeSatellites.take MAX_ACTIVE_RENDER).filterMap _).length
      ≤ (st.activeSatellites.take MAX_ACTIVE_RENDER).length :=
        List.length_filterMap_le _ _
    _ ≤ MAX_ACTIVE_RENDER := by
        rw [List.length_take]
        exact min_le_left _ _

/-! ## The update scheduler (src/js/app.js) -/

/-- The orbital propagator as the scheduler sees it: position providers
indexed by the virtual date (milliseconds since epoch). -/
structure Env where
  getPlayerPosition : ℚ → Option Vec3
  getDebrisPositions : ℚ → List Vec3
  getActiveSatellitePositions : ℚ → List Vec3

/-- `DEBRIS_UPDATE_INTERVAL` (src/js/app.js line 26), milliseconds. -/
def DEBRIS_UPDATE_INTERVAL : ℚ := 100
/-- `ACTIVE_SAT_INTERVAL` (line 27), milliseconds. -/
def ACTIVE_SAT_INTERVAL : ℚ := 500
/-- `CTS_UPDATE_INTERVAL` (line 28), milliseconds. -/
def CTS_UPDATE_INTERVAL : ℚ := 100
/-- `UI_UPDATE_INTERVAL` (line 29), milliseconds. -/
def UI_UPDATE_INTERVAL : ℚ := 100

/-- The App module's state (src/js/app.js lines 9-23) together with the
scene collaborator's observable effects (player/debris/active positions
last handed to the renderer) and the CTS engine state it drives. -/
structure AppState where
  isRunning : Bool
  currentDate : ℚ
  lastUpdateTime : ℚ
  timeMultiplier : ℚ
  frameCount : ℕ
  lastDebrisUpdate : ℚ
  lastActiveSatUpdate : ℚ
  lastCTSUpdate : ℚ
  lastUIUpdate : ℚ
  cts : CTSState
  scenePlayer : Option Vec3
  sceneDebris : List Vec3
  sceneActive : List Vec3

/-- `updatePlayer()` (src/js/app.js lines 353-364): hand a valid position
to the scene (positions are finite in this embedding). -/
def updatePlayer (env : Env) (s : AppState) : AppState :=
  match env.getPlayerPosition s.currentDate with
  | some position => { s with scenePlayer := some position }
  | none => s

/-- `updateDebris()` (lines 372-382): refresh the scene debris when the
propagated list is non-empty. -/
def updateDebris (env : Env) (s : AppState) : AppState :=
  let debrisPositions := env.getDebrisPositions s.currentDate
  if debrisPositions.isEmpty then s else { s with sceneDebris := debrisPositions }

/-- `updateActiveSatellites()` (lines 390-400). -/
def updateActiveSatellites (env : Env) (s : AppState) : AppState :=
  let positions := env.getActiveSatellitePositions s.currentDate
  if positions.isEmpty then s else { s with sceneActive := positions }

/-- `updateCTSScore()` (lines 408-419): score only when a player position
and a non-empty debris list are available. -/
noncomputable def updateCTSScore (env : Env) (s : AppState) : AppState :=
  let debrisPositions := env.getDebrisPositions s.currentDate
  match env.getPlayerPosition s.currentDate with
  | some p =>
    if debrisPositions.isEmpty then s
    else { s with cts := (calculateScore s.cts (some p) (some debrisPositions)).2 }
  | none => s

/-- `updateUI()` (lines 427-456): reads engine state and writes only
presentation widgets and scene overlays outside this model. -/
def updateUI (s : AppState) : AppState := s

/-- The virtual date after one tick at real time `now`:
`currentDate + deltaTime·1000·timeMultiplier` (lines 294-298). -/
def tickDate (s : AppState) (now : ℚ) : ℚ :=
  s.currentDate + (now - s.lastUpdateTime) / 1000 * 1000 * s.timeMultiplier

/-- Lines 293-300 of `animate()`: compute the delta, advance the virtual
clock by `deltaTime·1000·timeMultiplier`, count the frame. -/
def stepClock (s : AppState) (now : ℚ) : AppState :=
  { s with
      lastUpdateTime := now,
      currentDate := s.currentDate + (now - s.lastUpdateTime) / 1000 * 1000 * s.timeMultiplier,
      frameCount := s.frameCount + 1 }

/-- Lines 303-305: player update, gated by the running flag only. -/
def playerPhase (env : Env) (s : AppState) : AppState :=
  if s.isRunning then updatePlayer env s else s

/-- Lines 308-311: debris refresh, gated by the running flag and its
throttle interval, stamping its last-run time. -/
def debrisPhase (env : Env) (now : ℚ) (s : AppState) : AppState :=
  if s.isRunning ∧ now - s.lastDebrisUpdate > DEBRIS_UPDATE_INTERVAL
  then { (updateDebris env s) with lastDebrisUpdate := now } else s

/-- Lines 314-317: active-satellite refresh, throttled but not gated by
the running flag. -/
def activePhase (env : Env) (now : ℚ) (s : AppState) : AppState :=
  if now - s.lastActiveSatUpdate > ACTIVE_SAT_INTERVAL
  then { (updateActiveSatellites env s) with lastActiveSatUpdate := now } else s

/-- Lines 320-323: threat scoring, gated by the running flag and its
throttle interval. -/
noncomputable def ctsPhase (env : Env) (now : ℚ) (s : AppState) : AppState :=
  if s.isRunning ∧ now - s.lastCTSUpdate > CTS_UPDATE_INTERVAL
  then { (updateCTSScore env s) with lastCTSUpdate := now } else s

/-- Lines 326-329: UI snapshot, gated and throttled the same way. -/
def uiPhase (now : ℚ) (s : AppState) : AppState :=
  if s.isRunning ∧ now - s.lastUIUpdate > UI_UPDATE_INTERVAL
  then { (updateUI s) with lastUIUpdate := now } else s

/-- One pass of `animate()` (src/js/app.js lines 287-345) at real time
`now`: advance the clock, then run each category gated by its flag and
its own throttle interval, in source order. -/
noncomputable def animate (env : Env) (s : AppState) (now : ℚ) : AppState :=
  uiPhase now (ctsPhase env now (activePhase env now (debrisPhase env now
    (playerPhase env (stepClock s now)))))

/-- `pause()` (src/js/app.js lines 549-554): clears only the running flag. -/
def pause (s : AppState) : AppState := { s with isRunning := false }

/-- `resume()` (lines 559-564): sets only the running flag. -/
def resume (s : AppState) : AppState := { s with isRunning := true }

/-! ## Frame lemmas for the scheduler steps -/

@[simp] theorem updatePlayer_cts (env : Env) (s : AppState) :
    (updatePlayer env s).cts = s.cts := by
  unfold updatePlayer; cases env.getPlayerPosition s.currentDate <;> rfl

@[simp] theorem updatePlayer_currentDate (env : Env) (s : AppState) :
    (updatePlayer env s).currentDate = s.currentDate := by
  unfold updatePlayer; cases env.getPlayerPosition s.currentDate <;> rfl

@[simp] theorem updatePlayer_isRunning (env : Env) (s : AppState) :
    (updatePlayer env s).isRunning = s.isRunning := by
  unfold updatePlayer; cases env.getPlayerPosition s.currentDate <;> rfl

@[simp] theorem updatePlayer_sceneDebris (env : Env) (s : AppState) :
    (updatePlayer env s).sceneDebris = s.sceneDebris := by
  unfold updatePlayer; cases env.getPlayerPosition s.currentDate <;> rfl

@[simp] theorem updatePlayer_lastDebrisUpdate (env : Env) (s : AppState) :
    (updatePlayer env s).lastDebrisUpdate = s.lastDebrisUpdate := by
  unfold updatePlayer; cases env.getPlayerPosition s.currentDate <;> rfl

@[simp] theorem updatePlayer_lastActiveSatUpdate (env : Env) (s : AppState) :
    (updatePlayer env s).lastActiveSatUpdate = s.lastActiveSatUpdate := by
  unfold updatePlayer; cases env.getPlayerPosition s.currentDate <;> rfl

@[simp] theorem updatePlayer_lastCTSUpdate (env : Env) (s : AppState) :
    (updatePlayer env s).lastCTSUpdate = s.lastCTSUpdate := by
  unfold updatePlayer; cases env.getPlayerPosition s.currentDate <;> rfl

@[simp] theorem updatePlayer_lastUIUpdate (env : Env) (s : AppState) :
    (updatePlayer env s).lastUIUpdate = s.lastUIUpdate := by
  unfold updatePlayer; cases env.getPlayerPosition s.currentDate <;> rfl

@[simp] theorem updateDebris_cts (env : Env) (s : AppState) :
    (updateDebris env s).cts = s.cts := by
  simp only [updateDebris]; split_ifs <;> rfl

@[simp] theorem updateDebris_currentDate (env : Env) (s : AppState) :
    (updateDebris env s).currentDate = s.currentDate := by
  simp only [updateDebris]; split_ifs <;> rfl

@[simp] theorem updateDebris_isRunning (env : Env) (s : AppState) :
    (updateDebris env s).isRunning = s.isRunning := by
  simp only [updateDebris]; split_ifs <;> rfl

@[simp] theorem updateDebris_scenePlayer (env : Env) (s : AppState) :
    (updateDebris env s).scenePlayer = s.scenePlayer := by
  simp only [updateDebris]; split_ifs <;> rfl

@[simp] theorem updateDebris_lastActiveSatUpdate (env : Env) (s : AppState) :
    (updateDebris env s).lastActiveSatUpdate = s.lastActiveSatUpdate := by
  simp only [updateDebris]; split_ifs <;> rfl

@[simp] theorem updateDebris_lastCTSUpdate (env : Env) (s : AppState) :
    (updateDebris env s).lastCTSUpdate = s.lastCTSUpdate := by
  simp only [updateDebris]; split_ifs <;> rfl

@[simp] theorem updateDebris_lastUIUpdate (env : Env) (s : AppState) :
    (updateDebris env s).lastUIUpdate = s.lastUIUpdate := by
  simp only [updateDebris]; split_ifs <;> rfl

@[simp] theorem updateActiveSatellites_cts (env : Env) (s : AppState) :
    (updateActiveSatellites env s).cts = s.cts := by
  simp only [updateActiveSatellites]; split_ifs <;> rfl

@[simp] theorem updateActiveSatellites_currentDate (env : Env) (s : AppState) :
    (updateActiveSatellites env s).currentDate = s.currentDate := by
  simp only [updateActiveSatellites]; split_ifs <;> rfl

@[simp] theorem updateActiveSatellites_isRunning (env : Env) (s : AppState) :
    (updateActiveSatellites env s).isRunning = s.isRunning := by
  simp only [updateActiveSatellites]; split_ifs <;> rfl

@[simp] theorem updateActiveSatellites_scenePlayer (env : Env) (s : AppState) :
    (updateActiveSatellites env s).scenePlayer = s.scenePlayer := by
  simp only [updateActiveSatellites]; split_ifs <;> rfl

@[simp] theorem updateActiveSatellites_sceneDebris (env : Env) (s : AppState) :
    (updateActiveSatellites env s).sceneDebris = s.sceneDebris := by
  simp only [updateActiveSatellites]; split_ifs <;> rfl

@[simp] theorem updateActiveSatellites_lastCTSUpdate (env : Env) (s : AppState) :
    (updateActiveSatellites env s).lastCTSUpdate = s.lastCTSUpdate := by
  simp only [updateActiveSatellites]; split_ifs <;> rfl

@[simp] theorem updateActiveSatellites_lastUIUpdate (env : Env) (s : AppState) :
    (updateActiveSatellites env s).lastUIUpdate = s.lastUIUpdate := by
  simp only [updateActiveSatellites]; split_ifs <;> rfl

@[simp] theorem updateCTSScore_sceneDebris (env : Env) (s : AppState) :
    (updateCTSScore env s).sceneDebris = s.sceneDebris := by
  unfold updateCTSScore
  cases env.getPlayerPosition s.currentDate with
  | none => rfl
  | some p => dsimp only; split_ifs <;> rfl

@[simp] theorem updateCTSScore_scenePlayer (env : Env) (s : AppState) :
    (updateCTSScore env s).scenePlayer = s.scenePlayer := by
  unfold updateCTSScore
  cases env.getPlayerPosition s.currentDate with
  | none => rfl
  | some p => dsimp only; split_ifs <;> rfl

@[simp] theorem updateCTSScore_isRunning (env : Env) (s : AppState) :
    (updateCTSScore env s).isRunning = s.isRunning := by
  unfold updateCTSScore
  cases env.getPlayerPosition s.currentDate with
  | none => rfl
  | some p => dsimp only; split_ifs <;> rfl

@[simp] theorem updateCTSScore_lastUIUpdate (env : Env) (s : AppState) :
    (updateCTSScore env s).lastUIUpdate = s.lastUIUpdate := by
  unfold updateCTSScore
  cases env.getPlayerPosition s.currentDate with
  | none => rfl
  | some p => dsimp only; split_ifs <;> rfl

@[simp] theorem updateCTSScore_currentDate (env : Env) (s : AppState) :
    (updateCTSScore env s).currentDate = s.currentDate := by
  unfold updateCTSScore
  cases env.getPlayerPosition s.currentDate with
  | none => rfl
  | some p => dsimp only; split_ifs <;> rfl

@[simp] theorem updateUI_eq (s : AppState) : updateUI s = s := rfl

/-- When both inputs are available, `updateCTSScore` runs one scoring call. -/
theorem updateCTSScore_runs (env : Env) (s : AppState) (p : Vec3)
    (hp : env.getPlayerPosition s.currentDate = some p)
    (hd : env.getDebrisPositions s.currentDate ≠ []) :
    (updateCTSScore env s).cts
      = (calculateScore s.cts (some p) (some (env.getDebrisPositions s.currentDate))).2 := by
  unfold updateCTSScore
  rw [hp]
  dsimp only
  rw [if_neg (by simpa using hd)]

/-- When the propagated debris list is non-empty, `updateDebris` hands it
to the scene. -/
theorem updateDebris_runs (env : Env) (s : AppState)
    (hd : env.getDebrisPositions s.currentDate ≠ []) :
    (updateDebris env s).sceneDebris = env.getDebrisPositions s.currentDate := by
  simp only [updateDebris]
  rw [if_neg (by simpa using hd)]


/-! ## Frame lemmas for the phases -/

@[simp] theorem stepClock_isRunning (s : AppState) (now : ℚ) :
    (stepClock s now).isRunning = s.isRunning := rfl
@[simp] theorem stepClock_currentDate (s : AppState) (now : ℚ) :
    (stepClock s now).currentDate = tickDate s now := rfl
@[simp] theorem stepClock_cts (s : AppState) (now : ℚ) :
    (stepClock s now).cts = s.cts := rfl
@[simp] theorem stepClock_scenePlayer (s : AppState) (now : ℚ) :
    (stepClock s now).scenePlayer = s.scenePlayer := rfl
@[simp] theorem stepClock_sceneDebris (s : AppState) (now : ℚ) :
    (stepClock s now).sceneDebris = s.sceneDebris := rfl
@[simp] theorem stepClock_lastDebrisUpdate (s : AppState) (now : ℚ) :
    (stepClock s now).lastDebrisUpdate = s.lastDebrisUpdate := rfl
@[simp] theorem stepClock_lastActiveSatUpdate (s : AppState) (now : ℚ) :
    (stepClock s now).lastActiveSatUpdate = s.lastActiveSatUpdate := rfl
@[simp] theorem stepClock_lastCTSUpdate (s : AppState) (now : ℚ) :
    (stepClock s now).lastCTSUpdate = s.lastCTSUpdate := rfl
@[simp] theorem stepClock_lastUIUpdate (s : AppState) (now : ℚ) :
    (stepClock s now).lastUIUpdate = s.lastUIUpdate := rfl

@[simp] theorem playerPhase_cts (env : Env) (s : AppState) :
    (playerPhase env s).cts = s.cts := by
  unfold playerPhase; split_ifs <;> simp
@[simp] theorem playerPhase_isRunning (env : Env) (s : AppState) :
    (playerPhase env s).isRunning = s.isRunning := by
  unfold playerPhase; split_ifs <;> simp
@[simp] theorem playerPhase_currentDate (env : Env) (s : AppState) :
    (playerPhase env s).currentDate = s.currentDate := by
  unfold playerPhase; split_ifs <;> simp
@[simp] theorem playerPhase_sceneDebris (env : Env) (s : AppState) :
    (playerPhase env s).sceneDebris = s.sceneDebris := by
  unfold playerPhase; split_ifs <;> simp
@[simp] theorem playerPhase_lastDebrisUpdate (env : Env) (s : AppState) :
    (playerPhase env s).lastDebrisUpdate = s.lastDebrisUpdate := by
  unfold playerPhase; split_ifs <;> simp
@[simp] theorem playerPhase_lastActiveSatUpdate (env : Env) (s : AppState) :
    (playerPhase env s).lastActiveSatUpdate = s.lastActiveSatUpdate := by
  unfold playerPhase; split_ifs <;> simp
@[simp] theorem playerPhase_lastCTSUpdate (env : Env) (s : AppState) :
    (playerPhase env s).lastCTSUpdate = s.lastCTSUpdate := by
  unfold playerPhase; split_ifs <;> simp
@[simp] theorem playerPhase_lastUIUpdate (env : Env) (s : AppState) :
    (playerPhase env s).lastUIUpdate = s.lastUIUpdate := by
  unfold playerPhase; split_ifs <;> simp

theorem playerPhase_not_running (env : Env) (s : AppState)
    (h : s.isRunning = false) : playerPhase env s = s := by
  unfold playerPhase; simp [h]

@[simp] theorem debrisPhase_cts (env : Env) (now : ℚ) (s : AppState) :
    (debrisPhase env now s).cts = s.cts := by
  unfold debrisPhase; split_ifs <;> simp
@[simp] theorem debrisPhase_isRunning (env : Env) (now : ℚ) (s : AppState) :
    (debrisPhase env now s).isRunning = s.isRunning := by
  unfold debrisPhase; split_ifs <;> simp
@[simp] theorem debrisPhase_currentDate (env : Env) (now : ℚ) (s : AppState) :
    (debrisPhase env now s).currentDate = s.currentDate := by
  unfold debrisPhase; split_ifs <;> simp
@[simp] theorem debrisPhase_scenePlayer (env : Env) (now : ℚ) (s : AppState) :
    (debrisPhase env now s).scenePlayer = s.scenePlayer := by
  unfold debrisPhase; split_ifs <;> simp
@[simp] theorem debrisPhase_lastActiveSatUpdate (env : Env) (now : ℚ) (s : AppState) :
    (debrisPhase env now s).lastActiveSatUpdate = s.lastActiveSatUpdate := by
  unfold debrisPhase; split_ifs <;> simp
@[simp] theorem debrisPhase_lastCTSUpdate (env : Env) (now : ℚ) (s : AppState) :
    (debrisPhase env now s).lastCTSUpdate = s.lastCTSUpdate := by
  unfold debrisPhase; split_ifs <;> simp
@[simp] theorem debrisPhase_lastUIUpdate (env : Env) (now : ℚ) (s : AppState) :
    (debrisPhase env now s).lastUIUpdate = s.lastUIUpdate := by
  unfold debrisPhase; split_ifs <;> simp

theorem debrisPhase_not_running (env : Env) (now : ℚ) (s : AppState)
    (h : s.isRunning = false) : debrisPhase env now s = s := by
  unfold debrisPhase; simp [h]

theorem debrisPhase_runs (env : Env) (now : ℚ) (s : AppState)
    (hr : s.isRunning = true)
    (hdue : now - s.lastDebrisUpdate > DEBRIS_UPDATE_INTERVAL)
    (hd : env.getDebrisPositions s.currentDate ≠ []) :
    (debrisPhase env now s).sceneDebris = env.getDebrisPositions s.currentDate := by
  unfold debrisPhase
  rw [if_pos ⟨hr, hdue⟩]
  show (updateDebris env s).sceneDebris = _
  exact updateDebris_runs env s hd

@[simp] theorem activePhase_cts (env : Env) (now : ℚ) (s : AppState) :
    (activePhase env now s).cts = s.cts := by
  unfold activePhase; split_ifs <;> simp
@[simp] theorem activePhase_isRunning (env : Env) (now : ℚ) (s : AppState) :
    (activePhase env now s).isRunning = s.isRunning := by
  unfold activePhase; split_ifs <;> simp
@[simp] theorem activePhase_currentDate (env : Env) (now : ℚ) (s : AppState) :
    (activePhase env now s).currentDate = s.currentDate := by
  unfold activePhase; split_ifs <;> simp
@[simp] theorem activePhase_scenePlayer (env : Env) (now : ℚ) (s : AppState) :
    (activePhase env now s).scenePlayer = s.scenePlayer := by
  unfold activePhase; split_ifs <;> simp
@[simp] theorem activePhase_sceneDebris (env : Env) (now : ℚ) (s : AppState) :
    (activePhase env now s).sceneDebris = s.sceneDebris := by
  unfold activePhase; split_ifs <;> simp
@[simp] theorem activePhase_lastCTSUpdate (env : Env) (now : ℚ) (s : AppState) :
    (activePhase env now s).lastCTSUpdate = s.lastCTSUpdate := by
  unfold activePhase; split_ifs <;> simp
@[simp] theorem activePhase_lastUIUpdate (env : Env) (now : ℚ) (s : AppState) :
    (activePhase env now s).lastUIUpdate = s.lastUIUpdate := by
  unfold activePhase; split_ifs <;> simp

@[simp] theorem ctsPhase_isRunning (env : Env) (now : ℚ) (s : AppState) :
    (ctsPhase env now s).isRunning = s.isRunning := by
  unfold ctsPhase; split_ifs <;> simp
@[simp] theorem ctsPhase_currentDate (env : Env) (now : ℚ) (s : AppState) :
    (ctsPhase env now s).currentDate = s.currentDate := by
  unfold ctsPhase; split_ifs <;> simp
@[simp] theorem ctsPhase_scenePlayer (env : Env) (now : ℚ) (s : AppState) :
    (ctsPhase env now s).scenePlayer = s.scenePlayer := by
  unfold ctsPhase; split_ifs <;> simp
@[simp] theorem ctsPhase_sceneDebris (env : Env) (now : ℚ) (s : AppState) :
    (ctsPhase env now s).sceneDebris = s.sceneDebris := by
  unfold ctsPhase; split_ifs <;> simp
@[simp] theorem ctsPhase_lastUIUpdate (env : Env) (now : ℚ) (s : AppState) :
    (ctsPhase env now s).lastUIUpdate = s.lastUIUpdate := by
  unfold ctsPhase; split_ifs <;> simp

theorem ctsPhase_not_running (env : Env) (now : ℚ) (s : AppState)
    (h : s.isRunning = false) : ctsPhase env now s = s := by
  unfold ctsPhase; simp [h]

theorem ctsPhase_runs (env : Env) (now : ℚ) (s : AppState) (p : Vec3)
    (hr : s.isRunning = true)
    (hdue : now - s.lastCTSUpdate > CTS_UPDATE_INTERVAL)
    (hp : env.getPlayerPosition s.currentDate = some p)
    (hd : env.getDebrisPositions s.currentDate ≠ []) :
    (ctsPhase env now s).cts
      = (calculateScore s.cts (some p) (some (env.getDebrisPositions s.currentDate))).2 := by
  unfold ctsPhase
  rw [if_pos ⟨hr, hdue⟩]
  show (updateCTSScore env s).cts = _
  exact updateCTSScore_runs env s p hp hd

@[simp] theorem uiPhase_cts (now : ℚ) (s : AppState) :
    (uiPhase now s).cts = s.cts := by
  unfold uiPhase; split_ifs <;> simp
@[simp] theorem uiPhase_isRunning (now : ℚ) (s : AppState) :
    (uiPhase now s).isRunning = s.isRunning := by
  unfold uiPhase; split_ifs <;> simp
@[simp] theorem uiPhase_currentDate (now : ℚ) (s : AppState) :
    (uiPhase now s).currentDate = s.currentDate := by
  unfold uiPhase; split_ifs <;> simp
@[simp] theorem uiPhase_scenePlayer (now : ℚ) (s : AppState) :
    (uiPhase now s).scenePlayer = s.scenePlayer := by
  unfold uiPhase; split_ifs <;> simp
@[simp] theorem uiPhase_sceneDebris (now : ℚ) (s : AppState) :
    (uiPhase now s).sceneDebris = s.sceneDebris := by
  unfold uiPhase; split_ifs <;> simp

/-- A paused tick advances only the clock (and possibly the ungated
active-satellite refresh): the engine state, the scene player position and
the scene debris are untouched. -/
theorem animate_paused (env : Env) (s : AppState) (now : ℚ)
    (h : s.isRunning = false) :
    (animate env s now).currentDate = tickDate s now ∧
      (animate env s now).cts = s.cts ∧
      (animate env s now).scenePlayer = s.scenePlayer ∧
      (animate env s now).sceneDebris = s.sceneDebris := by
  have h1 : (stepClock s now).isRunning = false := by
    simp only [stepClock_isRunning]; exact h
  unfold animate
  rw [playerPhase_not_running _ _ h1, debrisPhase_not_running _ _ _ h1]
  have h4 : (activePhase env now (stepClock s now)).isRunning = false := by
    simp only [activePhase_isRunning, stepClock_isRunning]; exact h
  rw [ctsPhase_not_running _ _ _ h4]
  have h5 : (uiPhase now (activePhase env now (stepClock s now))).currentDate
      = tickDate s now := by simp
  exact ⟨h5, by simp, by simp, by simp⟩

/-- A running tick with the scoring and debris categories due and both
inputs available appends exactly one history sample and refreshes the
scene debris. -/
theorem animate_running_effects (env : Env) (t : AppState) (n : ℚ) (p : Vec3)
    (hr : t.isRunning = true)
    (hlen : t.cts.historicalScores.length ≤ 120)
    (hcts : n - t.lastCTSUpdate > CTS_UPDATE_INTERVAL)
    (hdeb : n - t.lastDebrisUpdate > DEBRIS_UPDATE_INTERVAL)
    (hp : env.getPlayerPosition (tickDate t n) = some p)
    (hd : env.getDebrisPositions (tickDate t n) ≠ []) :
    (animate env t n).cts.historicalScores.length
        = min (t.cts.historicalScores.length + 1) 120 ∧
      (animate env t n).sceneDebris = env.getDebrisPositions (tickDate t n) := by
  unfold animate
  set s1 := stepClock t n with hs1
  set s2 := playerPhase env s1 with hs2
  set s3 := debrisPhase env n s2 with hs3
  set s4 := activePhase env n s3 with hs4
  set s5 := ctsPhase env n s4 with hs5
  have h2run : s2.isRunning = true := by rw [hs2]; simp [hs1, hr]
  have h2date : s2.currentDate = tickDate t n := by rw [hs2]; simp [hs1]
  have h2deb : s2.lastDebrisUpdate = t.lastDebrisUpdate := by rw [hs2]; simp [hs1]
  have h2cts : s2.cts = t.cts := by rw [hs2]; simp [hs1]
  have h3run : s3.isRunning = true := by rw [hs3]; simp [h2run]
  have h3date : s3.currentDate = tickDate t n := by rw [hs3]; simp [h2date]
  have h3ctsStamp : s3.lastCTSUpdate = t.lastCTSUpdate := by
    rw [hs3]; simp [hs2, hs1]
  have h3cts : s3.cts = t.cts := by rw [hs3]; simp [h2cts]
  have h3deb : s3.sceneDebris = env.getDebrisPositions (tickDate t n) := by
    rw [hs3, debrisPhase_runs env n s2 h2run (by rw [h2deb]; exact hdeb)
      (by rw [h2date]; exact hd), h2date]
  have h4run : s4.isRunning = true := by rw [hs4]; simp [h3run]
  have h4date : s4.currentDate = tickDate t n := by rw [hs4]; simp [h3date]
  have h4ctsStamp : s4.lastCTSUpdate = t.lastCTSUpdate := by rw [hs4]; simp [h3ctsStamp]
  have h4cts : s4.cts = t.cts := by rw [hs4]; simp [h3cts]
  have h4deb : s4.sceneDebris = env.getDebrisPositions (tickDate t n) := by
    rw [hs4]; simp [h3deb]
  have h5cts : s5.cts
      = (calculateScore t.cts (some p) (some (env.getDebrisPositions (tickDate t n)))).2 := by
    rw [hs5, ctsPhase_runs env n s4 p h4run (by rw [h4ctsStamp]; exact hcts)
      (by rw [h4date]; exact hp) (by rw [h4date]; exact hd), h4cts, h4date]
  have h5deb : s5.sceneDebris = env.getDebrisPositions (tickDate t n) := by
    rw [hs5]; simp [h4deb]
  constructor
  · have hui : (uiPhase n s5).cts = s5.cts := by simp
    rw [hui, h5cts, calculateScore_state_hist]
    exact pushHistory_length _ _ hlen
  · have hui : (uiPhase n s5).sceneDebris = s5.sceneDebris := by simp
    rw [hui, h5deb]

/-- The conjunction claim C9 asserts about pausing and resuming: a paused
tick still advances the virtual clock by elapsed·multiplier but runs no
player update, debris refresh or scoring; `pause`/`resume` themselves touch
neither the engine history nor the virtual clock; and a resumed (running)
tick with its categories due and valid inputs scores again — appending
exactly one history sample — and refreshes the scene debris. -/
def PauseResumeClaim (env : Env) (s : AppState) (now : ℚ) : Prop :=
  (animate env s now).currentDate = tickDate s now ∧
  (animate env s now).cts = s.cts ∧
  (animate env s now).scenePlayer = s.scenePlayer ∧
  (animate env s now).sceneDebris = s.sceneDebris ∧
  (resume s).isRunning = true ∧
  (∀ t : AppState,
    (pause t).cts = t.cts ∧ (pause t).currentDate = t.currentDate ∧
      (resume t).cts = t.cts ∧ (resume t).currentDate = t.currentDate) ∧
  (∀ (t : AppState) (n : ℚ) (p : Vec3),
    t.isRunning = true →
    t.cts.historicalScores.length ≤ 120 →
    n - t.lastCTSUpdate > CTS_UPDATE_INTERVAL →
    n - t.lastDebrisUpdate > DEBRIS_UPDATE_INTERVAL →
    env.getPlayerPosition (tickDate t n) = some p →
    env.getDebrisPositions (tickDate t n) ≠ [] →
    (animate env t n).cts.historicalScores.length
        = min (t.cts.historicalScores.length + 1) 120 ∧
      (animate env t n).sceneDebris = env.getDebrisPositions (tickDate t n))

/-- Claim C9: while paused, every scheduler tick still advances virtual
time by elapsed real time times the multiplier, but no player update,
debris refresh or scoring runs (the engine state, and with it the score
history, is unchanged); pause and resume reset neither the history nor the
virtual clock; and after resume a due tick scores and refreshes debris
again. -/
theorem pause_resume_semantics (env : Env) (s : AppState) (now : ℚ)
    (h : s.isRunning = false) : PauseResumeClaim env s now := by
  obtain ⟨hdate, hcts, hplayer, hdebris⟩ := animate_paused env s now h
  refine ⟨hdate, hcts, hplayer, hdebris, rfl, fun t => ⟨rfl, rfl, rfl, rfl⟩, ?_⟩
  intro t n p hr hlen hc hdeb hp hd
  exact animate_running_effects env t n p hr hlen hc hdeb hp hd

/-- A propagator environment with no satellites loaded. -/
def demoEnv : Env := ⟨fun _ => none, fun _ => [], fun _ => []⟩

/-- A freshly initialized, paused application state. -/
def demoApp : AppState :=
  ⟨false, 0, 0, 1, 0, 0, 0, 0, 0, initialCTS, none, [], []⟩

/-- Claim C9 witness: the paused demo state evaluated at a concrete tick. -/
theorem pause_resume_semantics_witness :
    demoApp.isRunning = false ∧ PauseResumeClaim demoEnv demoApp 0 :=
  ⟨rfl, pause_resume_semantics demoEnv demoApp 0 rfl⟩
